import Mathlib

/-!
# Invoice lifecycle and payment reconciliation

A shallow embedding of the invoice / payment core of the freelance billing
system (models, services, repository queries), with theorems about the
status machine, totals recomputation, payment reconciliation and
reporting buckets.

Conventions of the embedding:

* Monetary amounts are rational numbers.
* Dates are integer day numbers; the code only ever compares dates and
  takes day differences.
* Python exceptions are the `PyErr` type, mirroring `Utils/exceptions.py`
  (which defines no `InvalidOperation` class), extended with the
  Python-level errors the payment code actually triggers: `typeError`
  (the `Payment(..., transaction_id=...)` call in `record_payment` — the
  dataclass has no `transaction_id` field), `importError` (the service
  module imports `PaymentNotFoundError`, a class `Utils/exceptions.py`
  does not define) and `attributeError` (the references to
  `InvoiceStatus.PARTIALLY_PAID`, a member the `InvoiceStatus` enum in
  `models/invoice.py` does not define — dead code, since the paths that
  would reach them crash earlier).
* Python truthiness of optional numeric and string fields (None, 0 and
  the empty string are falsy) is modelled explicitly.
* Persisted payments are modelled as rows of the `payments` relation of
  `config/database.py` (id, invoice_id, amount, transaction_id), extended
  with the `status` field of the `Payment` dataclass so that claims about
  payment statuses can be stated; the schema stores no status column and
  the repository SQL never consults one. The service itself can neither
  insert a row — the `Payment` construction raises `TypeError` first —
  nor reconstruct one — the relation has no `client_id` column while
  `Payment.__post_init__` demands `client_id > 0` — so the repository
  aggregates are quantified over arbitrary row sets (pre-existing or
  externally created data), and the mutation paths of the payment service
  abort, as proved below, with the store unchanged.
-/

namespace Billing

/-- Invoice status values, exactly the members of the `InvoiceStatus` enum in
`models/invoice.py`: draft, sent, paid, overdue, cancelled. The enum defines
no `partially_paid` member, although `services/payment_service.py` refers to
`InvoiceStatus.PARTIALLY_PAID`; evaluating that reference would raise
`AttributeError` (`PyErr.attributeError`), but the code paths that would
reach it crash earlier, as proved below. -/
inductive InvoiceStatus
  | draft
  | sent
  | paid
  | overdue
  | cancelled
deriving DecidableEq, Repr

/-- Payment status values, from the `PaymentStatus` enum in
`models/payment.py`. -/
inductive PaymentStatus
  | pending
  | completed
  | failed
  | cancelled
deriving DecidableEq, Repr

/-- Payment methods, from the `PaymentMethod` enum in `models/payment.py`. -/
inductive PaymentMethod
  | cash
  | bankTransfer
  | cheque
  | upi
  | card
  | other
deriving DecidableEq, Repr

/-- Project status values, from the `ProjectStatus` enum in
`models/project.py`. -/
inductive ProjectStatus
  | active
  | completed
  | onHold
  | cancelled
deriving DecidableEq, Repr

/-- Errors: the exception classes defined in `Utils/exceptions.py`
(`ValidationError`, `ClientNotFoundError`, `ProjectNotFoundError`,
`InvoiceNotFoundError`, `DatabaseError`; there is no `InvalidOperation`
class), plus the Python-level failures the payment code triggers:
`typeError` for the `Payment(..., transaction_id=...)` constructor call
(no such dataclass field), `importError` for any use of the undefined
`PaymentNotFoundError` (whose `from` import already fails at module load),
and `attributeError` for an access to a nonexistent enum member such as
`InvoiceStatus.PARTIALLY_PAID`. -/
inductive PyErr
  | validationError
  | clientNotFound
  | projectNotFound
  | invoiceNotFound
  | databaseError
  | typeError
  | importError
  | attributeError
deriving DecidableEq, Repr

/-- Python truthiness of an optional rational field: `None` and `0` are
falsy, every other value truthy. -/
def ratTruthy : Option ℚ → Bool
  | none => false
  | some q => decide (q ≠ 0)

/-- Python truthiness of an optional string field: `None` and the empty
string are falsy. -/
def strTruthy : Option String → Bool
  | none => false
  | some s => decide (s ≠ "")

/-- The Python `str.strip()`: the string with leading and trailing
whitespace removed. -/
def pyStrip (s : String) : String :=
  ⟨((s.data.dropWhile (fun c => c.isWhitespace)).reverse.dropWhile
      (fun c => c.isWhitespace)).reverse⟩

/-- An invoice line item, from the `InvoiceItem` dataclass in
`models/invoice.py`: description, quantity, rate, and the stored `amount`
that `__post_init__` sets to `quantity * rate`. -/
structure InvoiceItem where
  description : String
  quantity : ℚ
  rate : ℚ
  amount : ℚ
deriving DecidableEq, Repr

/-- `InvoiceItem.__post_init__` (models/invoice.py): the stored amount is
`quantity * rate`. -/
def mkInvoiceItem (description : String) (quantity rate : ℚ) : InvoiceItem :=
  ⟨description, quantity, rate, quantity * rate⟩

/-- The `Invoice` dataclass of `models/invoice.py`. Dates are integer day
numbers; the record-metadata fields (`id`, timestamps) play no part in the
claims and are omitted. -/
structure Invoice where
  invoice_number : String
  client_id : Int
  items : List InvoiceItem
  subtotal : ℚ
  tax_amount : ℚ
  total_amount : ℚ
  status : InvoiceStatus
  issue_date : Int
  due_date : Int
  notes : Option String
deriving DecidableEq, Repr

/-- The configured tax rate, `settings.invoice.tax_rate = 0.18` in
`config/settings.py`. -/
def taxRate : ℚ := 18 / 100

/-- Sum of the stored item amounts, as in
`sum(item.amount for item in self.items)`. -/
def subtotalOf (items : List InvoiceItem) : ℚ :=
  (items.map (fun it => it.amount)).sum

/-- `Invoice.calculate_totals` (models/invoice.py, lines 102-107):
`subtotal = Σ item.amount`, `tax_amount = subtotal * tax_rate`,
`total_amount = subtotal + tax_amount`. -/
def calculateTotals (inv : Invoice) : Invoice :=
  { inv with
    subtotal := subtotalOf inv.items
    tax_amount := subtotalOf inv.items * taxRate
    total_amount := subtotalOf inv.items + subtotalOf inv.items * taxRate }

/-- `Invoice.add_item` (models/invoice.py, lines 89-100): validate the item,
append it, recompute totals. -/
def addItem (inv : Invoice) (description : String) (quantity rate : ℚ) :
    Except PyErr Invoice :=
  if pyStrip description = "" then .error .validationError
  else if quantity ≤ 0 then .error .validationError
  else if rate < 0 then .error .validationError
  else .ok (calculateTotals
    { inv with items := inv.items ++ [mkInvoiceItem description quantity rate] })

/-- `InvoiceService.add_invoice_item` (services/invoice_service.py, lines
61-75), for an invoice that exists: a non-draft status raises
`ValidationError` before the item is added. -/
def addInvoiceItem (inv : Invoice) (description : String) (quantity rate : ℚ) :
    Except PyErr Invoice :=
  if inv.status ≠ InvoiceStatus.draft then .error .validationError
  else addItem inv description quantity rate

/-- `InvoiceService.mark_invoice_paid` (services/invoice_service.py, lines
77-89), for an invoice that exists: an already-paid invoice raises
`ValidationError`; otherwise the status is set to paid
(`Invoice.mark_as_paid` together with `update_status`). -/
def markInvoicePaid (inv : Invoice) : Except PyErr Invoice :=
  if inv.status = InvoiceStatus.paid then .error .validationError
  else .ok { inv with status := InvoiceStatus.paid }

/-- The in-memory `Payment` dataclass of `models/payment.py` (used by
`Payment.cancel_payment`, which operates on the model object only). -/
structure Payment where
  invoice_id : Int
  client_id : Int
  amount : ℚ
  payment_date : Int
  payment_method : PaymentMethod
  status : PaymentStatus
  reference_number : Option String
  notes : Option String
  transaction_fee : ℚ
  net_amount : ℚ
deriving DecidableEq, Repr

/-- `Payment.cancel_payment` (models/payment.py, lines 117-125): a completed
payment raises `ValidationError` and is left untouched; any other payment has
its status set to cancelled, with the optional reason appended to the notes
per the Python string formatting. -/
def cancelPayment (p : Payment) (reason : Option String) : Except PyErr Payment :=
  if p.status = PaymentStatus.completed then .error .validationError
  else
    .ok { p with
      status := PaymentStatus.cancelled
      notes :=
        if strTruthy reason then
          if strTruthy p.notes then
            some (p.notes.getD "" ++ ". Cancelled: " ++ reason.getD "")
          else some ("Cancelled: " ++ reason.getD "")
        else p.notes }

/-- A row of the `payments` relation as created in `config/database.py` and
written by `PaymentRepository.create`: id, invoice_id, amount,
transaction_id, plus the `status` field of the `Payment` dataclass, which
the repository SQL never stores nor consults (it defaults to pending).
The unused payment_date / payment_method / notes columns are omitted. -/
structure PaymentRow where
  id : Nat
  invoice_id : Nat
  amount : ℚ
  transaction_id : Option String
  status : PaymentStatus
deriving DecidableEq, Repr

/-- `PaymentRepository.get_total_paid_for_invoice`
(repositories/payment_repository.py, lines 64-74):
`SELECT SUM(amount) FROM payments WHERE invoice_id = ?` — the sum of the
amounts of every payment row of the invoice, with no filter on payment
status. -/
def getTotalPaidForInvoice (payments : List PaymentRow) (invoiceId : Nat) : ℚ :=
  ((payments.filter (fun p => p.invoice_id == invoiceId)).map
    (fun p => p.amount)).sum

/-- The sum of the amounts of the invoice payments whose status is
completed. This is the quantity the specification says drives
reconciliation; the repository query `getTotalPaidForInvoice` above does not
restrict to it. -/
def completedPaidForInvoice (payments : List PaymentRow) (invoiceId : Nat) : ℚ :=
  ((payments.filter (fun p =>
      p.invoice_id == invoiceId && p.status == PaymentStatus.completed)).map
    (fun p => p.amount)).sum

/-- `PaymentRepository.find_by_transaction_id`
(repositories/payment_repository.py, lines 138-147). -/
def findByTransactionId (payments : List PaymentRow) (t : String) :
    Option PaymentRow :=
  payments.find? (fun p => p.transaction_id == some t)

/-- The state the payment service reads and writes for one invoice: the
stored invoice status and total (columns of the `invoices` relation) and the
rows of the `payments` relation. -/
structure RecState where
  invoiceStatus : InvoiceStatus
  totalAmount : ℚ
  payments : List PaymentRow
deriving DecidableEq, Repr

/-- Outcome of a payment-service operation: either it completes with the new
store state, or a Python exception propagates, the store left in the state
already committed when the exception was raised. -/
inductive RecResult
  | ok (st : RecState)
  | error (e : PyErr) (st : RecState)
deriving DecidableEq, Repr

/-- The tail of `PaymentService.record_payment` after all validations pass
(services/payment_service.py, lines 48-57): the source constructs
`Payment(invoice_id=..., amount=..., payment_date=..., payment_method=...,
transaction_id=..., notes=...)`, but the `Payment` dataclass
(models/payment.py) has no `transaction_id` field, so the call raises
`TypeError` before `repository.create` runs: no payment row is ever
inserted, and the status-update block at lines 59-65 (which would set paid,
or reference the nonexistent `InvoiceStatus.PARTIALLY_PAID` for a draft
invoice) is unreachable. The store is returned unchanged with the error. -/
def recordPaymentInsert (st : RecState) : RecResult :=
  RecResult.error PyErr.typeError st

/-- `PaymentService.record_payment` (services/payment_service.py, lines
19-68), for an invoice that exists, with id `invoiceId`. Checks in source
order: cancelled invoice, then `amount <= 0`, then
`amount > total_amount - total_paid` (each raising `ValidationError` with
nothing persisted), then the duplicate transaction id check, and only then
the `Payment` construction, which raises `TypeError` (`recordPaymentInsert`
above). The remaining-balance operand here is the stored `total_amount`
column; the source compares against the reconstructed
`invoice.total_amount`, which `Invoice.from_dict` has recomputed from the
not-yet-attached (empty) item list, i.e. 0 — on every reachable state both
operands reject with the same `ValidationError`, and every branch of the
function raises with the store unchanged. -/
def recordPayment (st : RecState) (invoiceId _newId : Nat) (amount : ℚ)
    (transactionId : Option String) : RecResult :=
  if st.invoiceStatus = InvoiceStatus.cancelled then
    RecResult.error PyErr.validationError st
  else if amount ≤ 0 then
    RecResult.error PyErr.validationError st
  else if st.totalAmount - getTotalPaidForInvoice st.payments invoiceId < amount then
    RecResult.error PyErr.validationError st
  else if strTruthy transactionId &&
      (findByTransactionId st.payments (transactionId.getD "")).isSome then
    RecResult.error PyErr.validationError st
  else recordPaymentInsert st

/-- `PaymentRepository._row_to_model`, i.e. `Payment.from_dict(dict(row))`
(models/payment.py, lines 51-96 then 37-49), applied to a payments-table
row: the relation has no `client_id` column, so `from_dict` defaults
`client_id` to 0 and `Payment.__post_init__` raises
`ValidationError("Valid client ID is required")` — for every row, so the
reconstruction yields an exception, never a payment, and the function
returns the error raised. (The `invoice_id <= 0` check that precedes it
would raise the same `ValidationError`.) -/
def rowToModelError (_row : PaymentRow) : PyErr :=
  PyErr.validationError

/-- `PaymentService.delete_payment` (services/payment_service.py, lines
118-132): `find_by_id` fetches the row and reconstructs it through
`Payment.from_dict`, which raises `ValidationError` for every row
(`rowToModelError`), so the deletion at line 125 and the status
re-derivation `_update_invoice_payment_status` at line 129 are never
reached and the store is unchanged. When no row matches, the source would
raise `PaymentNotFoundError`, a class `Utils/exceptions.py` does not
define; its `from` import fails at module load (`importError`). -/
def deletePayment (st : RecState) (paymentId : Nat) : RecResult :=
  match st.payments.find? (fun p => p.id == paymentId) with
  | none => RecResult.error PyErr.importError st
  | some row => RecResult.error (rowToModelError row) st

/-- `PaymentService.update_payment` (services/payment_service.py, lines
70-116): it begins with the same `find_by_id` reconstruction and therefore
aborts identically — `ValidationError` for an existing row, the undefined
`PaymentNotFoundError` otherwise — before reading any of the updated-field
arguments (unused here for that reason) and before any write. -/
def updatePayment (st : RecState) (paymentId : Nat) (_amount : Option ℚ)
    (_transactionId : Option String) : RecResult :=
  match st.payments.find? (fun p => p.id == paymentId) with
  | none => RecResult.error PyErr.importError st
  | some row => RecResult.error (rowToModelError row) st

/-- The store state after an operation: the committed state carried by
either outcome. -/
def resultState : RecResult → RecState
  | .ok st => st
  | .error _ st => st

/-- A payment-service call, for speaking about sequences of payment
operations against one invoice. -/
inductive PaymentOp
  | record (invoiceId newId : Nat) (amount : ℚ) (transactionId : Option String)
  | update (paymentId : Nat) (amount : Option ℚ) (transactionId : Option String)
  | delete (paymentId : Nat)

/-- Run one payment-service call on the store. -/
def applyOp (st : RecState) : PaymentOp → RecResult
  | .record invoiceId newId amount transactionId =>
      recordPayment st invoiceId newId amount transactionId
  | .update paymentId amount transactionId =>
      updatePayment st paymentId amount transactionId
  | .delete paymentId => deletePayment st paymentId

/-- Run a sequence of payment-service calls, each acting on the state the
previous one committed. -/
def runOps (st : RecState) : List PaymentOp → RecState
  | [] => st
  | op :: ops => runOps (resultState (applyOp st op)) ops

/-- The `Project` dataclass of `models/project.py` (record-metadata fields
omitted). -/
structure Project where
  client_id : Int
  name : String
  description : Option String
  hourly_rate : Option ℚ
  fixed_rate : Option ℚ
  hours_worked : ℚ
  status : ProjectStatus
deriving DecidableEq, Repr

/-- `Project.__post_init__` (models/project.py, lines 24-35). Python
truthiness: a rate of `None` or `0` counts as unset. The checks, in source
order: blank name; non-positive client id; neither rate set; a set hourly
rate that is negative; a set fixed rate that is negative. There is no check
that both rates are not set simultaneously. -/
def mkProject (clientId : Int) (name : String)
    (hourlyRate fixedRate : Option ℚ)
    (description : Option String := none) (hoursWorked : ℚ := 0)
    (status : ProjectStatus := ProjectStatus.active) :
    Except PyErr Project :=
  if pyStrip name = "" then .error .validationError
  else if clientId ≤ 0 then .error .validationError
  else if ¬ratTruthy hourlyRate ∧ ¬ratTruthy fixedRate then
    .error .validationError
  else if ratTruthy hourlyRate ∧ hourlyRate.getD 0 < 0 then
    .error .validationError
  else if ratTruthy fixedRate ∧ fixedRate.getD 0 < 0 then
    .error .validationError
  else .ok ⟨clientId, name, description, hourlyRate, fixedRate,
    hoursWorked, status⟩

/-- The aging buckets of the outstanding-invoices report
(cli/report_menu.py, lines 292-297). -/
inductive AgingBucket
  | current
  | days1to30
  | days31to60
  | days60plus
deriving DecidableEq, Repr

/-- Bucket assignment of `_outstanding_invoices` (cli/report_menu.py, lines
281-290): `days_overdue = (today - invoice.due_date).days`, then the
if/elif chain over 0, 30 and 60. -/
def agingBucket (daysOverdue : Int) : AgingBucket :=
  if daysOverdue ≤ 0 then .current
  else if daysOverdue ≤ 30 then .days1to30
  else if daysOverdue ≤ 60 then .days31to60
  else .days60plus

/-- Modelled from the spec: `report_service.get_outstanding_invoices` is
called by `_outstanding_invoices` (cli/report_menu.py, line 261) but is
absent from `services/report_service.py`; per the specification the
outstanding invoices are those with status not in (paid, cancelled), the
same filter `get_outstanding_payments_report` applies. -/
def getOutstandingInvoices (invoices : List Invoice) : List Invoice :=
  invoices.filter (fun inv =>
    !(inv.status == InvoiceStatus.paid || inv.status == InvoiceStatus.cancelled))

/-- The categorization step of `_outstanding_invoices` (cli/report_menu.py,
lines 274-297): each outstanding invoice is tagged with the aging bucket of
its day difference to today. -/
def outstandingAging (today : Int) (invoices : List Invoice) :
    List (Invoice × AgingBucket) :=
  (getOutstandingInvoices invoices).map
    (fun inv => (inv, agingBucket (today - inv.due_date)))

/-- A fixture: an empty invoice with the given status. -/
def sampleInvoice (s : InvoiceStatus) : Invoice :=
  ⟨"INV-1", 1, [], 0, 0, 0, s, 0, 30, none⟩

/-- A fixture: a pending model-level payment of 50. -/
def samplePayment : Payment :=
  ⟨1, 1, 50, 0, PaymentMethod.bankTransfer, PaymentStatus.pending,
    none, none, 0, 50⟩

/-- The example invoice after adding ("Design", 10, 100). -/
def exampleInvoice1 : Invoice :=
  ⟨"INV-1", 1, [mkInvoiceItem "Design" 10 100],
    1000, 180, 1180, InvoiceStatus.draft, 0, 30, none⟩

/-- The example invoice after further adding ("Dev", 5, 200). -/
def exampleInvoice2 : Invoice :=
  ⟨"INV-1", 1, [mkInvoiceItem "Design" 10 100, mkInvoiceItem "Dev" 5 200],
    2000, 360, 2360, InvoiceStatus.draft, 0, 30, none⟩

/-- A fixture: an hourly project at rate 75. -/
def sampleProject : Project :=
  ⟨1, "App", none, some 75, none, 0, ProjectStatus.active⟩

/-- C1: the claim says that after a payment mutation the invoice status is
re-derived from the recomputed cumulative total. That re-derivation is
precisely what `_update_invoice_payment_status` was written to do, but the
code never reaches it: `delete_payment` (and `update_payment`) first calls
`find_by_id`, whose `Payment.from_dict` reconstruction raises
`ValidationError` for every payments row — the relation has no `client_id`
column and `Payment.__post_init__` requires `client_id > 0` — so nothing
is deleted and no status is re-derived (the service module even fails to
import, its `PaymentNotFoundError` import naming a class that does not
exist, and the derivation itself references the nonexistent
`InvoiceStatus.PARTIALLY_PAID`). Evaluated at the failing input: deleting
the sole payment of 40 on a sent invoice of total 100 raises
`ValidationError` with the store — row included — unchanged. -/
theorem deletePayment_aborts_before_mutation :
    deletePayment ⟨InvoiceStatus.sent, 100,
        [⟨1, 1, 40, none, PaymentStatus.pending⟩]⟩ 1 =
      RecResult.error PyErr.validationError
        ⟨InvoiceStatus.sent, 100, [⟨1, 1, 40, none, PaymentStatus.pending⟩]⟩ := by
  simp [deletePayment, rowToModelError, List.find?]

/-- C2: for an existing invoice, any payment amount strictly greater than
the remaining balance (`total_amount` minus the sum of existing payments)
makes `record_payment` fail with `ValidationError`, with the payment not
persisted and the whole store state, in particular the invoice status,
unchanged. -/
theorem recordPayment_overpayment_rejected (st : RecState)
    (invoiceId newId : Nat) (amount : ℚ) (transactionId : Option String)
    (h : st.totalAmount - getTotalPaidForInvoice st.payments invoiceId < amount) :
    recordPayment st invoiceId newId amount transactionId =
      RecResult.error PyErr.validationError st := by
  unfold recordPayment
  by_cases h1 : st.invoiceStatus = InvoiceStatus.cancelled
  · rw [if_pos h1]
  · rw [if_neg h1]
    by_cases h2 : amount ≤ 0
    · rw [if_pos h2]
    · rw [if_neg h2, if_pos h]

/-- C2 witness: on a fully paid invoice (total 2360, one payment of 2360,
remaining balance 0) a positive payment attempt of 500 fails with
`ValidationError` and changes nothing. -/
theorem recordPayment_overpayment_rejected_witness :
    (2360 : ℚ) - getTotalPaidForInvoice
        [⟨1, 1, 2360, none, PaymentStatus.pending⟩] 1 < 500
    ∧ recordPayment
        ⟨InvoiceStatus.paid, 2360, [⟨1, 1, 2360, none, PaymentStatus.pending⟩]⟩
        1 2 500 none =
      RecResult.error PyErr.validationError
        ⟨InvoiceStatus.paid, 2360, [⟨1, 1, 2360, none, PaymentStatus.pending⟩]⟩ :=
  ⟨by simp [getTotalPaidForInvoice],
    recordPayment_overpayment_rejected
      ⟨InvoiceStatus.paid, 2360, [⟨1, 1, 2360, none, PaymentStatus.pending⟩]⟩
      1 2 500 none (by simp [getTotalPaidForInvoice])⟩

/-- C4: recomputation sets `subtotal` to the sum of quantity times rate over
the items in insertion order, `tax_amount` to `subtotal` times the
configured tax rate and `total_amount` to their sum; it never touches the
items, and it is idempotent. The example invoice with items
("Design", 10, 100) and ("Dev", 5, 200) at the configured tax rate 0.18 has
subtotal 2000, tax 360 and total 2360. -/
theorem invoice_totals_correct :
    (∀ inv : Invoice,
        (calculateTotals inv).subtotal = subtotalOf inv.items
        ∧ (calculateTotals inv).tax_amount = subtotalOf inv.items * taxRate
        ∧ (calculateTotals inv).total_amount =
            subtotalOf inv.items + subtotalOf inv.items * taxRate
        ∧ (calculateTotals inv).items = inv.items)
    ∧ (∀ l : List (String × ℚ × ℚ),
        subtotalOf (l.map (fun t => mkInvoiceItem t.1 t.2.1 t.2.2)) =
          (l.map (fun t => t.2.1 * t.2.2)).sum)
    ∧ (∀ inv : Invoice, calculateTotals (calculateTotals inv) = calculateTotals inv)
    ∧ addItem (sampleInvoice InvoiceStatus.draft) "Design" 10 100 =
        Except.ok exampleInvoice1
    ∧ addItem exampleInvoice1 "Dev" 5 200 = Except.ok exampleInvoice2
    ∧ exampleInvoice2.subtotal = 2000 ∧ exampleInvoice2.tax_amount = 360
    ∧ exampleInvoice2.total_amount = 2360 := by
  refine ⟨fun inv => ⟨rfl, rfl, rfl, rfl⟩, ?_, fun inv => rfl, ?_, ?_, rfl, rfl, rfl⟩
  · intro l
    induction l with
    | nil => rfl
    | cons hd tl ih =>
      simp only [List.map_cons, List.sum_cons, subtotalOf] at ih ⊢
      rw [← ih]
      rfl
  · norm_num [addItem, calculateTotals, subtotalOf, mkInvoiceItem,
      sampleInvoice, taxRate, exampleInvoice1,
      (by decide : pyStrip "Design" ≠ "")]
  · norm_num [addItem, calculateTotals, subtotalOf, mkInvoiceItem,
      taxRate, exampleInvoice1, exampleInvoice2,
      (by decide : pyStrip "Dev" ≠ "")]

/-- C9: cancelling a completed payment fails with `ValidationError` (the
payment object untouched, the mutation happening only after the check);
cancelling a payment in any other status succeeds and sets its status to
cancelled, preserving amount and invoice. -/
theorem cancelPayment_spec :
    (∀ (p : Payment) (reason : Option String),
        p.status = PaymentStatus.completed →
          cancelPayment p reason = Except.error PyErr.validationError)
    ∧ (∀ (p : Payment) (reason : Option String),
        p.status ≠ PaymentStatus.completed →
          ∃ p', cancelPayment p reason = Except.ok p'
            ∧ p'.status = PaymentStatus.cancelled
            ∧ p'.amount = p.amount
            ∧ p'.invoice_id = p.invoice_id) := by
  constructor
  · intro p reason hp
    unfold cancelPayment
    rw [if_pos hp]
  · intro p reason hp
    unfold cancelPayment
    rw [if_neg hp]
    exact ⟨_, rfl, rfl, rfl, rfl⟩

/-- C9 witness: cancelling a concrete pending payment succeeds and yields
status cancelled. -/
theorem cancelPayment_spec_witness :
    samplePayment.status ≠ PaymentStatus.completed
    ∧ ∃ p', cancelPayment samplePayment none = Except.ok p'
        ∧ p'.status = PaymentStatus.cancelled
        ∧ p'.amount = samplePayment.amount
        ∧ p'.invoice_id = samplePayment.invoice_id :=
  ⟨by decide, cancelPayment_spec.2 samplePayment none (by decide)⟩

/-- C10: for an existing invoice, `mark_invoice_paid` raises an error
exactly when the invoice is already paid (and that error is
`ValidationError`); in every other status, cancelled included, it succeeds
and sets the status to paid. -/
theorem markInvoicePaid_spec :
    (∀ inv : Invoice,
        (∃ e, markInvoicePaid inv = Except.error e) ↔
          inv.status = InvoiceStatus.paid)
    ∧ (∀ inv : Invoice, inv.status = InvoiceStatus.paid →
        markInvoicePaid inv = Except.error PyErr.validationError)
    ∧ (∀ inv : Invoice, inv.status ≠ InvoiceStatus.paid →
        markInvoicePaid inv = Except.ok { inv with status := InvoiceStatus.paid }) := by
  refine ⟨fun inv => ⟨?_, ?_⟩, fun inv hs => ?_, fun inv hs => ?_⟩
  · rintro ⟨e, he⟩
    by_contra hs
    unfold markInvoicePaid at he
    rw [if_neg hs] at he
    exact Except.noConfusion he
  · intro hs
    exact ⟨PyErr.validationError, by unfold markInvoicePaid; rw [if_pos hs]⟩
  · unfold markInvoicePaid
    rw [if_pos hs]
  · unfold markInvoicePaid
    rw [if_neg hs]

/-- C10 witness: a cancelled invoice is not paid, and marking it paid
succeeds, moving its status to paid. -/
theorem markInvoicePaid_spec_witness :
    (sampleInvoice InvoiceStatus.cancelled).status ≠ InvoiceStatus.paid
    ∧ markInvoicePaid (sampleInvoice InvoiceStatus.cancelled) =
        Except.ok ⟨"INV-1", 1, [], 0, 0, 0, InvoiceStatus.paid, 0, 30, none⟩ :=
  ⟨by decide, markInvoicePaid_spec.2.2 (sampleInvoice InvoiceStatus.cancelled)
    (by decide)⟩

/-- C3 counterexample: a single pending payment of 100 contributes its full
amount to the cumulative total the service consults
(`get_total_paid_for_invoice`, read at payment_service.py lines 35 and 137
and compared against `total_amount` at lines 36-38 and 60-61 and 141),
while the sum over the completed payments of the same invoice is 0: a
payment outside status completed does contribute to the reconciliation
sum, refuting the only-completed-payments claim. -/
theorem pending_payment_counts_in_total :
    getTotalPaidForInvoice [⟨1, 1, 100, none, PaymentStatus.pending⟩] 1 = 100
    ∧ completedPaidForInvoice [⟨1, 1, 100, none, PaymentStatus.pending⟩] 1 = 0
    ∧ (100 : ℚ) ≠ 0 :=
  ⟨by simp [getTotalPaidForInvoice], by simp [completedPaidForInvoice],
    by norm_num⟩

/-- C3 amended: the cumulative paid total used for status derivation is
status-blind — over any set of payment rows, appending a payment of any
status to the invoice adds its amount to the total in full, and relabelling
the statuses of all rows never changes the total. (The SQL behind it is
`SELECT SUM(amount) ... WHERE invoice_id = ?` with no status condition; the
payments table stores no status column.) -/
theorem totalPaid_ignores_status :
    (∀ (rows : List PaymentRow) (invoiceId rowId : Nat) (amount : ℚ)
        (transactionId : Option String) (status : PaymentStatus),
        getTotalPaidForInvoice
            (rows ++ [⟨rowId, invoiceId, amount, transactionId, status⟩])
            invoiceId =
          getTotalPaidForInvoice rows invoiceId + amount)
    ∧ (∀ (rows : List PaymentRow) (f : PaymentStatus → PaymentStatus)
        (invoiceId : Nat),
        getTotalPaidForInvoice
            (rows.map (fun r =>
              ⟨r.id, r.invoice_id, r.amount, r.transaction_id, f r.status⟩))
            invoiceId =
          getTotalPaidForInvoice rows invoiceId) := by
  constructor
  · intro rows invoiceId rowId amount transactionId status
    simp [getTotalPaidForInvoice, List.filter_append, List.map_append,
      List.sum_append]
  · intro rows f invoiceId
    induction rows with
    | nil => rfl
    | cons r rows ih =>
      simp only [getTotalPaidForInvoice, List.map_cons, List.filter_cons] at ih ⊢
      by_cases h : (r.invoice_id == invoiceId) = true
      · simp only [h, if_true, List.map_cons, List.sum_cons, ih]
      · simp [h, ih]

/-- C5: a draft invoice never receives an automatic status transition from
payment operations — and for the strongest possible reason: every payment
operation raises before any write. Recording aborts in the validation
checks or, once they pass, at the `Payment(..., transaction_id=...)`
construction (`TypeError`); updating and deleting abort reconstructing the
payment in `find_by_id` (`ValidationError` for every row). Each call
returns an exception with the store exactly as it was, so over every
sequence of payment operations a draft invoice stays draft. -/
theorem draft_invoice_never_transitions :
    (∀ (st : RecState) (invoiceId newId : Nat) (amount : ℚ)
        (transactionId : Option String),
        ∃ e, recordPayment st invoiceId newId amount transactionId =
          RecResult.error e st)
    ∧ (∀ (st : RecState) (paymentId : Nat) (amount : Option ℚ)
        (transactionId : Option String),
        ∃ e, updatePayment st paymentId amount transactionId =
          RecResult.error e st)
    ∧ (∀ (st : RecState) (paymentId : Nat),
        ∃ e, deletePayment st paymentId = RecResult.error e st)
    ∧ (∀ (st : RecState) (ops : List PaymentOp),
        st.invoiceStatus = InvoiceStatus.draft →
          (runOps st ops).invoiceStatus = InvoiceStatus.draft) := by
  have hrec : ∀ (st : RecState) (invoiceId newId : Nat) (amount : ℚ)
      (transactionId : Option String),
      ∃ e, recordPayment st invoiceId newId amount transactionId =
        RecResult.error e st := by
    intro st invoiceId newId amount transactionId
    unfold recordPayment recordPaymentInsert
    split_ifs <;> exact ⟨_, rfl⟩
  have hupd : ∀ (st : RecState) (paymentId : Nat) (amount : Option ℚ)
      (transactionId : Option String),
      ∃ e, updatePayment st paymentId amount transactionId =
        RecResult.error e st := by
    intro st paymentId amount transactionId
    unfold updatePayment
    cases st.payments.find? (fun p => p.id == paymentId) <;> exact ⟨_, rfl⟩
  have hdel : ∀ (st : RecState) (paymentId : Nat),
      ∃ e, deletePayment st paymentId = RecResult.error e st := by
    intro st paymentId
    unfold deletePayment
    cases st.payments.find? (fun p => p.id == paymentId) <;> exact ⟨_, rfl⟩
  have hstep : ∀ (st : RecState) (op : PaymentOp),
      resultState (applyOp st op) = st := by
    intro st op
    cases op with
    | record invoiceId newId amount transactionId =>
      obtain ⟨e, he⟩ := hrec st invoiceId newId amount transactionId
      simp [applyOp, he, resultState]
    | update paymentId amount transactionId =>
      obtain ⟨e, he⟩ := hupd st paymentId amount transactionId
      simp [applyOp, he, resultState]
    | delete paymentId =>
      obtain ⟨e, he⟩ := hdel st paymentId
      simp [applyOp, he, resultState]
  have hrun : ∀ (ops : List PaymentOp) (st : RecState), runOps st ops = st := by
    intro ops
    induction ops with
    | nil => intro st; rfl
    | cons op ops ih =>
      intro st
      simp only [runOps, hstep st op]
      exact ih st
  exact ⟨hrec, hupd, hdel, fun st ops hd => by rw [hrun ops st]; exact hd⟩

/-- C5 witness: a concrete draft store; after attempting a full payment and
a deletion, the status is still draft. -/
theorem draft_invoice_never_transitions_witness :
    (⟨InvoiceStatus.draft, 2360, []⟩ : RecState).invoiceStatus =
        InvoiceStatus.draft
    ∧ (runOps ⟨InvoiceStatus.draft, 2360, []⟩
        [PaymentOp.record 1 1 2360 none, PaymentOp.delete 1]).invoiceStatus =
      InvoiceStatus.draft :=
  ⟨rfl, draft_invoice_never_transitions.2.2.2
    ⟨InvoiceStatus.draft, 2360, []⟩
    [PaymentOp.record 1 1 2360 none, PaymentOp.delete 1] rfl⟩

/-- C6 counterexample: adding an item to a sent invoice fails with
`ValidationError`, not with an `InvalidOperation` error; indeed the error
taxonomy of `Utils/exceptions.py` (the `PyErr` type) contains no
`InvalidOperation` at all. -/
theorem addInvoiceItem_sent_raises_validation_error :
    addInvoiceItem (sampleInvoice InvoiceStatus.sent) "Design" 1 100 =
      Except.error PyErr.validationError := by
  simp [addInvoiceItem, sampleInvoice]

/-- C6 amended: adding an item through the service succeeds only on a draft
invoice; on an invoice in any other status it fails with `ValidationError`,
the invoice unchanged (the error is raised before the item is appended or
the totals recomputed). -/
theorem addInvoiceItem_requires_draft :
    (∀ (inv : Invoice) (d : String) (q r : ℚ) (inv' : Invoice),
        addInvoiceItem inv d q r = Except.ok inv' →
          inv.status = InvoiceStatus.draft)
    ∧ (∀ (inv : Invoice) (d : String) (q r : ℚ),
        inv.status ≠ InvoiceStatus.draft →
          addInvoiceItem inv d q r = Except.error PyErr.validationError) := by
  constructor
  · intro inv d q r inv' hok
    by_contra hs
    unfold addInvoiceItem at hok
    rw [if_pos hs] at hok
    exact Except.noConfusion hok
  · intro inv d q r hs
    unfold addInvoiceItem
    rw [if_pos hs]

/-- C6 amended witness: a paid invoice is not draft, and adding an item to
it fails with `ValidationError`. -/
theorem addInvoiceItem_requires_draft_witness :
    (sampleInvoice InvoiceStatus.paid).status ≠ InvoiceStatus.draft
    ∧ addInvoiceItem (sampleInvoice InvoiceStatus.paid) "Dev" 1 50 =
        Except.error PyErr.validationError :=
  ⟨by simp [sampleInvoice], addInvoiceItem_requires_draft.2
    (sampleInvoice InvoiceStatus.paid) "Dev" 1 50 (by simp [sampleInvoice])⟩

/-- C7: the outstanding report keeps exactly the invoices whose status is
neither paid nor cancelled, and assigns each one exactly one bucket by its
day difference today minus due date: current when at most 0, the 1 to 30
bucket, the 31 to 60 bucket, and the over-60 bucket; a due date 45 days
before today lands in the 31 to 60 bucket. -/
theorem outstanding_aging_spec :
    (∀ d : Int,
        (agingBucket d = AgingBucket.current ↔ d ≤ 0)
        ∧ (agingBucket d = AgingBucket.days1to30 ↔ 1 ≤ d ∧ d ≤ 30)
        ∧ (agingBucket d = AgingBucket.days31to60 ↔ 31 ≤ d ∧ d ≤ 60)
        ∧ (agingBucket d = AgingBucket.days60plus ↔ 60 < d))
    ∧ (∀ (today : Int) (invoices : List Invoice) (inv : Invoice)
          (b : AgingBucket),
        (inv, b) ∈ outstandingAging today invoices →
          inv.status ≠ InvoiceStatus.paid ∧ inv.status ≠ InvoiceStatus.cancelled
            ∧ b = agingBucket (today - inv.due_date))
    ∧ (∀ (today : Int) (inv : Invoice), inv.due_date = today - 45 →
        agingBucket (today - inv.due_date) = AgingBucket.days31to60) := by
  refine ⟨?_, ?_, ?_⟩
  · intro d
    unfold agingBucket
    refine ⟨?_, ?_, ?_, ?_⟩ <;> split_ifs <;> simp <;> omega
  · intro today invoices inv b hmem
    unfold outstandingAging getOutstandingInvoices at hmem
    obtain ⟨inv0, hmem0, heq⟩ := List.mem_map.mp hmem
    simp only [Prod.mk.injEq] at heq
    obtain ⟨rfl, rfl⟩ := heq
    obtain ⟨-, hcond⟩ := List.mem_filter.mp hmem0
    simp only [Bool.not_eq_true', Bool.or_eq_false_iff, beq_eq_false_iff_ne,
      ne_eq] at hcond
    exact ⟨hcond.1, hcond.2, rfl⟩
  · intro today inv h
    rw [h, show today - (today - 45) = 45 by ring]
    decide

/-- C7 witness: with today at day 100, a sent invoice due at day 55 (45
days before today) falls in the 31 to 60 bucket. -/
theorem outstanding_aging_spec_witness :
    ({ sampleInvoice InvoiceStatus.sent with due_date := 55 } : Invoice).due_date
        = 100 - 45
    ∧ agingBucket
        (100 - ({ sampleInvoice InvoiceStatus.sent with due_date := 55 } :
          Invoice).due_date) = AgingBucket.days31to60 :=
  ⟨by decide, outstanding_aging_spec.2.2 100
    { sampleInvoice InvoiceStatus.sent with due_date := 55 } (by decide)⟩

/-- C8 counterexample: constructing a project with both an hourly rate of
50 and a fixed rate of 1000 succeeds — there is no mutual-exclusivity
check in `Project.__post_init__` — refuting the claim that exactly one of
the two rates can ever be set. -/
theorem project_both_rates_accepted :
    mkProject 1 "Site" (some 50) (some 1000) =
      Except.ok ⟨1, "Site", none, some 50, some 1000, 0, ProjectStatus.active⟩
    ∧ ratTruthy (some (50 : ℚ)) = true
    ∧ ratTruthy (some (1000 : ℚ)) = true := by
  refine ⟨?_, by simp [ratTruthy], by simp [ratTruthy]⟩
  norm_num [mkProject, ratTruthy, (by decide : pyStrip "Site" ≠ "")]

/-- Helper for C8: a truthy rate that failed the negativity check is
strictly positive. -/
theorem ratTruthy_pos_of_not_neg {r : Option ℚ} (ht : ratTruthy r = true)
    (hn : ¬(ratTruthy r = true ∧ r.getD 0 < 0)) : 0 < r.getD 0 := by
  cases r with
  | none => simp [ratTruthy] at ht
  | some q =>
    have hq : q ≠ 0 := of_decide_eq_true ht
    have hle : ¬(q < 0) := fun hlt => hn ⟨ht, by simpa using hlt⟩
    have hpos : 0 < q := lt_of_le_of_ne (not_lt.mp hle) (Ne.symm hq)
    simpa using hpos

/-- C8 amended: a successfully constructed project has at least one of the
two rates set (a rate of None or 0 counting as unset; both may be set
simultaneously), every set rate is strictly positive, and construction with
neither rate set fails with `ValidationError`. -/
theorem project_rate_invariant :
    (∀ (cid : Int) (nm : String) (hr fr : Option ℚ) (p : Project),
        mkProject cid nm hr fr = Except.ok p →
          (ratTruthy p.hourly_rate ∨ ratTruthy p.fixed_rate)
          ∧ (ratTruthy p.hourly_rate → 0 < p.hourly_rate.getD 0)
          ∧ (ratTruthy p.fixed_rate → 0 < p.fixed_rate.getD 0))
    ∧ (∀ (cid : Int) (nm : String) (hr fr : Option ℚ),
        ¬ratTruthy hr → ¬ratTruthy fr →
          mkProject cid nm hr fr = Except.error PyErr.validationError) := by
  constructor
  · intro cid nm hr fr p hok
    unfold mkProject at hok
    by_cases h1 : pyStrip nm = ""
    · rw [if_pos h1] at hok; exact Except.noConfusion hok
    · rw [if_neg h1] at hok
      by_cases h2 : cid ≤ 0
      · rw [if_pos h2] at hok; exact Except.noConfusion hok
      · rw [if_neg h2] at hok
        by_cases h3 : ¬ratTruthy hr ∧ ¬ratTruthy fr
        · rw [if_pos h3] at hok; exact Except.noConfusion hok
        · rw [if_neg h3] at hok
          by_cases h4 : ratTruthy hr ∧ hr.getD 0 < 0
          · rw [if_pos h4] at hok; exact Except.noConfusion hok
          · rw [if_neg h4] at hok
            by_cases h5 : ratTruthy fr ∧ fr.getD 0 < 0
            · rw [if_pos h5] at hok; exact Except.noConfusion hok
            · rw [if_neg h5] at hok
              have hp : Project.mk cid nm none hr fr 0 ProjectStatus.active = p :=
                Except.ok.inj hok
              subst hp
              refine ⟨?_, fun hh => ratTruthy_pos_of_not_neg hh h4,
                fun hf => ratTruthy_pos_of_not_neg hf h5⟩
              by_cases hh : ratTruthy hr
              · exact Or.inl hh
              · right
                by_contra hf
                exact h3 ⟨hh, hf⟩
  · intro cid nm hr fr hhr hfr
    unfold mkProject
    by_cases h1 : pyStrip nm = ""
    · rw [if_pos h1]
    · rw [if_neg h1]
      by_cases h2 : cid ≤ 0
      · rw [if_pos h2]
      · rw [if_neg h2, if_pos ⟨hhr, hfr⟩]

/-- C8 amended witness: the hourly project at rate 75 constructs
successfully, has a truthy hourly rate, and that rate is positive. -/
theorem project_rate_invariant_witness :
    mkProject 1 "App" (some 75) none = Except.ok sampleProject
    ∧ ((ratTruthy sampleProject.hourly_rate ∨ ratTruthy sampleProject.fixed_rate)
      ∧ (ratTruthy sampleProject.hourly_rate → 0 < sampleProject.hourly_rate.getD 0)
      ∧ (ratTruthy sampleProject.fixed_rate → 0 < sampleProject.fixed_rate.getD 0)) :=
  ⟨by norm_num [mkProject, ratTruthy, sampleProject,
      (by decide : pyStrip "App" ≠ "")],
    project_rate_invariant.1 1 "App" (some 75) none sampleProject
      (by norm_num [mkProject, ratTruthy, sampleProject,
        (by decide : pyStrip "App" ≠ "")])⟩

end Billing
